import Mathlib

/-!
# Verification of the XoneK2 MIDI remote script (`src/XoneK2.py`)

Shallow embedding of the XoneK2 control-surface adapter.  Python floats are
modelled as exact rationals (`ℚ`); every numeric constant of the source is
exactly representable, and all claim-relevant computations were checked to
give the same results under IEEE double arithmetic as under exact rational
arithmetic.  Host objects (tracks, devices, parameters) are modelled as
immutable records and each handler becomes a pure function from the adapter
state to a new state together with the list of MIDI messages it emits.
-/

namespace XoneK2

/-- `MIDI_CHANNEL_NUM = 15 - 1`: the Xone K2 uses midi channel 15. -/
def MIDI_CHANNEL_NUM : ℕ := 15 - 1

/-- `NUM_TRACKS = 4`. -/
def NUM_TRACKS : ℕ := 4

/-- `NORMALIZED_ZERO_DB = 0.85000002384185791015625`, the value Live uses
for 0 dB (this decimal literal is the exact value of the IEEE double). -/
def NORMALIZED_ZERO_DB : ℚ := 0.85000002384185791015625

def MUTE_BUTTON_COLOR : String := "red"

def CUE_BUTTON_COLOR : String := "orange"

def EQ_KILL_COLOR : String := "red"

def EQ_CUT_COLOR : String := "green"

/-- Modelled from the spec: MIDI status constants from
`_Framework.InputControlElement` (not under `src/`); spec §6: note-on is
`0x90 | channel`, note-off is `0x80 | channel`. -/
def MIDI_NOTE_ON_STATUS : ℕ := 144

/-- Modelled from the spec: note-off status `0x80` (see
`MIDI_NOTE_ON_STATUS`). -/
def MIDI_NOTE_OFF_STATUS : ℕ := 128

/-- The pitch-class list of `_create_note_to_midi_dict`. -/
def notes : List String :=
  ["c", "c#", "d", "d#", "e", "f", "f#", "g", "g#", "a", "a#", "b"]

/-- `octaves = [str(num) for num in range(-1, 10)]`. -/
def octaves : List String :=
  (List.range 11).map (fun num => toString ((num : ℤ) - 1))

/-- `octave_notes = [note + octave for octave in octaves for note in notes]`
(outer loop over octaves, inner over notes). -/
def octave_notes : List String :=
  octaves.flatMap (fun octave => notes.map (fun note => note ++ octave))

/-- The dict `{octave_notes[i]: i for i in range(len(octave_notes))}`,
modelled as an association list in insertion order (the keys are pairwise
distinct, so first-wins lookup agrees with Python's last-wins dict
comprehension). -/
def note_to_midi : List (String × ℕ) :=
  (List.range octave_notes.length).map (fun i => (octave_notes.getD i "", i))

/-- Dict lookup `self.note_to_midi[label]`. -/
def noteToMidiLookup (label : String) : Option ℕ :=
  note_to_midi.lookup label

/-- Total wrapper for `self.note_to_midi[label]`: a missing label would be a
Python `KeyError`; the out-of-range sentinel `1000` makes any such access
fail every range-validity theorem below. -/
def nm (label : String) : ℕ :=
  (noteToMidiLookup label).getD 1000

/-- The inner color dict of one entry of `element_color_to_midi`. -/
structure ElementColors where
  red : ℕ
  orange : ℕ
  green : ℕ
deriving DecidableEq

/-- The dict returned by `_create_element_color_dict`, as an association
list in source order. -/
def element_color_to_midi : List (String × ElementColors) :=
  [ ("top_encoder_1", ⟨nm "e3", nm "e6", nm "e9"⟩),
    ("top_encoder_2", ⟨nm "f3", nm "f6", nm "f9"⟩),
    ("top_encoder_3", ⟨nm "f#3", nm "f#6", nm "f#9"⟩),
    ("top_encoder_4", ⟨nm "g3", nm "g6", nm "g9"⟩),
    ("pot_switch_1", ⟨nm "c3", nm "c6", nm "c9"⟩),
    ("pot_switch_2", ⟨nm "c#3", nm "c#6", nm "c#9"⟩),
    ("pot_switch_3", ⟨nm "d3", nm "d6", nm "d9"⟩),
    ("pot_switch_4", ⟨nm "d#3", nm "d#6", nm "d#9"⟩),
    ("pot_switch_5", ⟨nm "g#2", nm "g#5", nm "g#8"⟩),
    ("pot_switch_6", ⟨nm "a2", nm "a5", nm "a8"⟩),
    ("pot_switch_7", ⟨nm "a#2", nm "a#5", nm "a#8"⟩),
    ("pot_switch_8", ⟨nm "b2", nm "b5", nm "b8"⟩),
    ("pot_switch_9", ⟨nm "e2", nm "e5", nm "e8"⟩),
    ("pot_switch_10", ⟨nm "f2", nm "f5", nm "f8"⟩),
    ("pot_switch_11", ⟨nm "f#2", nm "f#5", nm "f#8"⟩),
    ("pot_switch_12", ⟨nm "g2", nm "g5", nm "g8"⟩),
    ("matrix_button_a", ⟨nm "c2", nm "c5", nm "c8"⟩),
    ("matrix_button_b", ⟨nm "c#2", nm "c#5", nm "c#8"⟩),
    ("matrix_button_c", ⟨nm "d2", nm "d5", nm "d8"⟩),
    ("matrix_button_d", ⟨nm "d#2", nm "d#5", nm "d#8"⟩),
    ("matrix_button_e", ⟨nm "g#1", nm "g#4", nm "g#7"⟩),
    ("matrix_button_f", ⟨nm "a1", nm "a4", nm "a7"⟩),
    ("matrix_button_g", ⟨nm "a#1", nm "a#4", nm "a#7"⟩),
    ("matrix_button_h", ⟨nm "b1", nm "b4", nm "b7"⟩),
    ("matrix_button_i", ⟨nm "e1", nm "e4", nm "e7"⟩),
    ("matrix_button_j", ⟨nm "f1", nm "f4", nm "f7"⟩),
    ("matrix_button_k", ⟨nm "f#1", nm "f#4", nm "f#7"⟩),
    ("matrix_button_l", ⟨nm "g1", nm "g4", nm "g7"⟩),
    ("matrix_button_m", ⟨nm "c1", nm "c4", nm "c7"⟩),
    ("matrix_button_n", ⟨nm "c#1", nm "c#4", nm "c#7"⟩),
    ("matrix_button_o", ⟨nm "d1", nm "d4", nm "d7"⟩),
    ("matrix_button_p", ⟨nm "d#1", nm "d#4", nm "d#7"⟩),
    ("layer_button", ⟨nm "c0", nm "e0", nm "g#0"⟩),
    ("exit_setup_button", ⟨nm "d#0", nm "g0", nm "b0"⟩) ]

/-- A host device parameter (`DeviceParameter`): a name and a float value.
A binding holds the parameter's state; mutating a bound parameter is
modelled by replacing the binding's stored value. -/
structure DeviceParameter where
  name : String
  value : ℚ
deriving DecidableEq

/-- A host device: a name and its parameter list. -/
structure Device where
  name : String
  parameters : List DeviceParameter
deriving DecidableEq

/-- `track.mixer_device.volume` (only its `.value` is used). -/
structure Volume where
  value : ℚ
deriving DecidableEq

/-- `track.mixer_device`. -/
structure MixerDevice where
  volume : Volume
deriving DecidableEq

/-- A host track, restricted to the attributes the script reads/writes. -/
structure Track where
  mute : Bool
  solo : Bool
  mixer_device : MixerDevice
  devices : List Device
deriving DecidableEq

/-- Track returned for an out-of-range index (the Python code would raise
`IndexError`; all wired indices are `0..3`). -/
def defaultTrack : Track :=
  { mute := false, solo := false,
    mixer_device := { volume := { value := 0 } }, devices := [] }

/-- The mutable attributes of the `XoneK2` instance that the handlers touch,
plus the host song state (`song.tempo`, `song.visible_tracks`). -/
structure XoneK2State where
  tracks : List Track
  tempo : ℚ
  coarse_encoder_is_pushed : Bool
  fine_encoder_pushed : Bool
  eq3_devices : List (Option Device)
  eq3_device_on_params : List (Option DeviceParameter)
  eq3_hi_cut_params : List (Option DeviceParameter)
  eq3_mid_cut_params : List (Option DeviceParameter)
  eq3_low_cut_params : List (Option DeviceParameter)
  eq3_hi_gain_params : List (Option DeviceParameter)
  eq3_mid_gain_params : List (Option DeviceParameter)
  eq3_low_gain_params : List (Option DeviceParameter)
deriving DecidableEq

/-- A raw MIDI message `(status, note, velocity)` as passed to
`self.c_instance.send_midi`. -/
abbrev MidiMsg := ℕ × ℕ × ℕ

/-- `self.mute_elements`. -/
def mute_elements : List String :=
  ["matrix_button_i", "matrix_button_j", "matrix_button_k", "matrix_button_l"]

/-- `self.cue_elements`. -/
def cue_elements : List String :=
  ["matrix_button_a", "matrix_button_b", "matrix_button_c", "matrix_button_d"]

/-- `self.eq_kill_elements`. -/
def eq_kill_elements : List String :=
  ["matrix_button_e", "matrix_button_f", "matrix_button_g", "matrix_button_h"]

/-- `self.track_stop_elements`. -/
def track_stop_elements : List String :=
  ["matrix_button_m", "matrix_button_n", "matrix_button_o", "matrix_button_p"]

/-- `self.hi_eq_cut_elements`. -/
def hi_eq_cut_elements : List String :=
  ["pot_switch_1", "pot_switch_2", "pot_switch_3", "pot_switch_4"]

/-- `self.mid_eq_cut_elements`. -/
def mid_eq_cut_elements : List String :=
  ["pot_switch_5", "pot_switch_6", "pot_switch_7", "pot_switch_8"]

/-- `self.low_eq_cut_elements`. -/
def low_eq_cut_elements : List String :=
  ["pot_switch_9", "pot_switch_10", "pot_switch_11", "pot_switch_12"]

/-- `self.element_color_to_midi[element_name][color]`: nested dict lookup.
A missing element name or color would be a Python `KeyError`; the sentinel
`1000` is outside the valid note range. -/
def elementColorNote (element_name color : String) : ℕ :=
  match element_color_to_midi.lookup element_name with
  | some c =>
      if color = "red" then c.red
      else if color = "orange" then c.orange
      else if color = "green" then c.green
      else 1000
  | none => 1000

/-- `light_up_element`: the note-on message it sends. -/
def light_up_element (element_name color : String) : MidiMsg :=
  (MIDI_NOTE_ON_STATUS + MIDI_CHANNEL_NUM, elementColorNote element_name color, 127)

/-- `dim_element`: the note-off message it sends. -/
def dim_element (element_name color : String) : MidiMsg :=
  (MIDI_NOTE_OFF_STATUS + MIDI_CHANNEL_NUM, elementColorNote element_name color, 127)

/-- `dim_all_elements`: three full passes over the element table (Python
iterates the dict; the model uses the table's source order), dimming the
red, then orange, then green layer of every element. -/
def dim_all_elements : List MidiMsg :=
  element_color_to_midi.map (fun e => dim_element e.1 "red")
    ++ element_color_to_midi.map (fun e => dim_element e.1 "orange")
    ++ element_color_to_midi.map (fun e => dim_element e.1 "green")

/-- `disconnect` sends exactly the `dim_all_elements` messages. -/
def disconnect_messages : List MidiMsg := dim_all_elements

/-- `find_eq3_device`: first device named `EQ Three` on the track, if any. -/
def find_eq3_device (track : Track) : Option Device :=
  (track.devices.filter (fun device => device.name = "EQ Three")).head?

/-- `get_eq3_parameter`: first parameter with the given name, if any. -/
def get_eq3_parameter (eq3 : Device) (param_name : String) : Option DeviceParameter :=
  (eq3.parameters.filter (fun param => param.name = param_name)).head?

/-- `device_on_param is not None and device_on_param.value == 1.0`. -/
def paramIsOne : Option DeviceParameter → Bool
  | some p => p.value = 1
  | none => false

/-- `draw_mute_button`: the message it sends. -/
def draw_mute_button (s : XoneK2State) (index : ℕ) : MidiMsg :=
  let track := s.tracks.getD index defaultTrack
  let mute_element := mute_elements.getD index ""
  if ! track.mute then light_up_element mute_element MUTE_BUTTON_COLOR
  else dim_element mute_element MUTE_BUTTON_COLOR

/-- `draw_cue_button`: the message it sends. -/
def draw_cue_button (s : XoneK2State) (index : ℕ) : MidiMsg :=
  let track := s.tracks.getD index defaultTrack
  let cue_element := cue_elements.getD index ""
  if track.solo then light_up_element cue_element CUE_BUTTON_COLOR
  else dim_element cue_element CUE_BUTTON_COLOR

/-- `draw_eq_kill`: the message it sends. -/
def draw_eq_kill (s : XoneK2State) (index : ℕ) : MidiMsg :=
  let eq_kill_element := eq_kill_elements.getD index ""
  if paramIsOne (s.eq3_device_on_params.getD index none) then
    light_up_element eq_kill_element EQ_KILL_COLOR
  else dim_element eq_kill_element EQ_KILL_COLOR

/-- `draw_hi_eq_cut`: the message it sends. -/
def draw_hi_eq_cut (s : XoneK2State) (index : ℕ) : MidiMsg :=
  let hi_cut_element := hi_eq_cut_elements.getD index ""
  if paramIsOne (s.eq3_hi_cut_params.getD index none) then
    light_up_element hi_cut_element EQ_CUT_COLOR
  else dim_element hi_cut_element EQ_CUT_COLOR

/-- `draw_mid_eq_cut`: the message it sends. -/
def draw_mid_eq_cut (s : XoneK2State) (index : ℕ) : MidiMsg :=
  let mid_cut_element := mid_eq_cut_elements.getD index ""
  if paramIsOne (s.eq3_mid_cut_params.getD index none) then
    light_up_element mid_cut_element EQ_CUT_COLOR
  else dim_element mid_cut_element EQ_CUT_COLOR

/-- `draw_low_eq_cut`: the message it sends. -/
def draw_low_eq_cut (s : XoneK2State) (index : ℕ) : MidiMsg :=
  let low_cut_element := low_eq_cut_elements.getD index ""
  if paramIsOne (s.eq3_low_cut_params.getD index none) then
    light_up_element low_cut_element EQ_CUT_COLOR
  else dim_element low_cut_element EQ_CUT_COLOR

/-- `on_mute_button_push`: new state and the messages it sends. -/
def on_mute_button_push (s : XoneK2State) (index value : ℕ) :
    XoneK2State × List MidiMsg :=
  let track := s.tracks.getD index defaultTrack
  let mute_element := mute_elements.getD index ""
  let track' := if value = 127 then { track with mute := ! track.mute } else track
  let s' := if value = 127 then { s with tracks := s.tracks.set index track' } else s
  let msg :=
    if ! track'.mute then light_up_element mute_element MUTE_BUTTON_COLOR
    else dim_element mute_element MUTE_BUTTON_COLOR
  (s', [msg])

/-- `on_cue_button_push`: new state and the messages it sends
(`draw_cue_button` runs on the updated state). -/
def on_cue_button_push (s : XoneK2State) (index value : ℕ) :
    XoneK2State × List MidiMsg :=
  let track := s.tracks.getD index defaultTrack
  let s' :=
    if value = 127 then
      { s with tracks := s.tracks.set index { track with solo := ! track.solo } }
    else s
  (s', [draw_cue_button s' index])

/-- `on_volume_fader_move`: the volume written for a fader value. -/
def volume_fader_gain (value : ℕ) : ℚ :=
  let normalized_fader_value : ℚ := ((value : ℚ) + 1.0) / 128.0
  normalized_fader_value * NORMALIZED_ZERO_DB

/-- `on_volume_fader_move`: sets the track's mixer volume; no message. -/
def on_volume_fader_move (s : XoneK2State) (index value : ℕ) : XoneK2State :=
  let track := s.tracks.getD index defaultTrack
  let track' := { track with mixer_device := { volume := { value := volume_fader_gain value } } }
  { s with tracks := s.tracks.set index track' }

/-- `on_eq_kill_button_push`: flips the bound `Device On` parameter on a
press, then redraws from the updated state. -/
def on_eq_kill_button_push (s : XoneK2State) (index value : ℕ) :
    XoneK2State × List MidiMsg :=
  let s' :=
    match s.eq3_device_on_params.getD index none with
    | some p =>
        if value = 127 then
          { s with eq3_device_on_params :=
              s.eq3_device_on_params.set index (some { p with value := |p.value - 1| }) }
        else s
    | none => s
  (s', [draw_eq_kill s' index])

/-- The three EQ bands; the source passes the band's parameter list and draw
function to the shared handlers, the model selects them by band. -/
inductive Band
  | hi
  | mid
  | low
deriving DecidableEq

/-- The cut-parameter binding list of a band. -/
def cutParams (s : XoneK2State) : Band → List (Option DeviceParameter)
  | Band.hi => s.eq3_hi_cut_params
  | Band.mid => s.eq3_mid_cut_params
  | Band.low => s.eq3_low_cut_params

/-- Replace the cut-parameter binding list of a band. -/
def setCutParams (s : XoneK2State) (b : Band) (l : List (Option DeviceParameter)) :
    XoneK2State :=
  match b with
  | Band.hi => { s with eq3_hi_cut_params := l }
  | Band.mid => { s with eq3_mid_cut_params := l }
  | Band.low => { s with eq3_low_cut_params := l }

/-- The gain-parameter binding list of a band. -/
def gainParams (s : XoneK2State) : Band → List (Option DeviceParameter)
  | Band.hi => s.eq3_hi_gain_params
  | Band.mid => s.eq3_mid_gain_params
  | Band.low => s.eq3_low_gain_params

/-- Replace the gain-parameter binding list of a band. -/
def setGainParams (s : XoneK2State) (b : Band) (l : List (Option DeviceParameter)) :
    XoneK2State :=
  match b with
  | Band.hi => { s with eq3_hi_gain_params := l }
  | Band.mid => { s with eq3_mid_gain_params := l }
  | Band.low => { s with eq3_low_gain_params := l }

/-- The cut-button element-name list of a band. -/
def cutElements : Band → List String
  | Band.hi => hi_eq_cut_elements
  | Band.mid => mid_eq_cut_elements
  | Band.low => low_eq_cut_elements

/-- The draw function the source passes for a band's cut button. -/
def cutDraw (b : Band) (s : XoneK2State) (index : ℕ) : MidiMsg :=
  match b with
  | Band.hi => draw_hi_eq_cut s index
  | Band.mid => draw_mid_eq_cut s index
  | Band.low => draw_low_eq_cut s index

/-- `on_eq_cut_button_push`: flips the bound band cut parameter on a press,
then calls the band's draw function on the updated state. -/
def on_eq_cut_button_push (b : Band) (s : XoneK2State) (index value : ℕ) :
    XoneK2State × List MidiMsg :=
  let s' :=
    match (cutParams s b).getD index none with
    | some p =>
        if value = 127 then
          setCutParams s b ((cutParams s b).set index (some { p with value := |p.value - 1| }))
        else s
    | none => s
  (s', [cutDraw b s' index])

/-- The three-segment piecewise-linear gain computed by `on_eq_knob_turn`. -/
def eq_knob_gain_value (value : ℕ) : ℚ :=
  let normalized_knob_value : ℚ := ((value : ℚ) + 1.0) / 128.0
  let dead_zone_x_range : ℚ := 0.1
  let lower_x_range : ℚ := 0.5 - dead_zone_x_range / 2
  let lower_y_max : ℚ := NORMALIZED_ZERO_DB
  let upper_x_range : ℚ := 0.5 + dead_zone_x_range / 2
  let upper_y_range : ℚ := 1.0 - lower_y_max
  if normalized_knob_value ≤ lower_x_range then
    (normalized_knob_value / lower_x_range) * lower_y_max
  else if normalized_knob_value ≤ lower_x_range + dead_zone_x_range then
    NORMALIZED_ZERO_DB
  else
    let shifted_knob_value := normalized_knob_value - lower_x_range
    let scaled_knob_value := shifted_knob_value / upper_x_range
    lower_y_max + scaled_knob_value * upper_y_range

/-- `on_eq_knob_turn`: writes the piecewise-linear gain to the bound gain
parameter of the band; a missing binding is a no-op; no message is sent. -/
def on_eq_knob_turn (b : Band) (s : XoneK2State) (index value : ℕ) : XoneK2State :=
  match (gainParams s b).getD index none with
  | some p =>
      setGainParams s b ((gainParams s b).set index (some { p with value := eq_knob_gain_value value }))
  | none => s

/-- `on_coarse_tempo_change`. -/
def on_coarse_tempo_change (s : XoneK2State) (value : ℕ) : XoneK2State :=
  if value = 1 then
    if s.coarse_encoder_is_pushed then { s with tempo := s.tempo + 0.1 }
    else { s with tempo := s.tempo + 1.0 }
  else
    if s.coarse_encoder_is_pushed then { s with tempo := s.tempo - 0.1 }
    else { s with tempo := s.tempo - 1.0 }

/-- `on_fine_tempo_change`. -/
def on_fine_tempo_change (s : XoneK2State) (value : ℕ) : XoneK2State :=
  if value = 1 then
    if s.fine_encoder_pushed then { s with tempo := s.tempo + 0.01 }
    else { s with tempo := s.tempo + 0.1 }
  else
    if s.fine_encoder_pushed then { s with tempo := s.tempo - 0.01 }
    else { s with tempo := s.tempo - 0.1 }

/-- `on_coarse_encoder_push`. -/
def on_coarse_encoder_push (s : XoneK2State) (value : ℕ) : XoneK2State :=
  if value = 127 then { s with coarse_encoder_is_pushed := true }
  else { s with coarse_encoder_is_pushed := false }

/-- `on_fine_encoder_push`. -/
def on_fine_encoder_push (s : XoneK2State) (value : ℕ) : XoneK2State :=
  if value = 127 then { s with fine_encoder_pushed := true }
  else { s with fine_encoder_pushed := false }

/-- The four draw calls at the end of `update_devices_bindings`. -/
def update_draws (s : XoneK2State) (index : ℕ) : List MidiMsg :=
  [draw_eq_kill s index, draw_hi_eq_cut s index,
   draw_mid_eq_cut s index, draw_low_eq_cut s index]

/-- `update_devices_bindings`: re-derives all EQ3 bindings of the track from
its device list.  When no `EQ Three` device is found, the source resets the
device, device-on and the three cut bindings — but not the three gain
bindings, exactly as in the `else` branch of the Python code. -/
def update_devices_bindings (s : XoneK2State) (index : ℕ) :
    XoneK2State × List MidiMsg :=
  let track := s.tracks.getD index defaultTrack
  let eq3opt := find_eq3_device track
  let s0 := { s with eq3_devices := s.eq3_devices.set index eq3opt }
  let s' :=
    match eq3opt with
    | some eq3 =>
        { s0 with
          eq3_device_on_params :=
            s0.eq3_device_on_params.set index (get_eq3_parameter eq3 "Device On"),
          eq3_hi_cut_params :=
            s0.eq3_hi_cut_params.set index (get_eq3_parameter eq3 "HighOn"),
          eq3_mid_cut_params :=
            s0.eq3_mid_cut_params.set index (get_eq3_parameter eq3 "MidOn"),
          eq3_low_cut_params :=
            s0.eq3_low_cut_params.set index (get_eq3_parameter eq3 "LowOn"),
          eq3_hi_gain_params :=
            s0.eq3_hi_gain_params.set index (get_eq3_parameter eq3 "GainHi"),
          eq3_mid_gain_params :=
            s0.eq3_mid_gain_params.set index (get_eq3_parameter eq3 "GainMid"),
          eq3_low_gain_params :=
            s0.eq3_low_gain_params.set index (get_eq3_parameter eq3 "GainLo") }
    | none =>
        { s0 with
          eq3_device_on_params := s0.eq3_device_on_params.set index none,
          eq3_hi_cut_params := s0.eq3_hi_cut_params.set index none,
          eq3_mid_cut_params := s0.eq3_mid_cut_params.set index none,
          eq3_low_cut_params := s0.eq3_low_cut_params.set index none }
  (s', update_draws s' index)

/-- `setup_data_structures` applied to the host session handed to
`__init__`: all bindings start out empty. -/
def setup_data_structures (tracks : List Track) (tempo : ℚ) : XoneK2State :=
  { tracks := tracks, tempo := tempo,
    coarse_encoder_is_pushed := false, fine_encoder_pushed := false,
    eq3_devices := List.replicate NUM_TRACKS none,
    eq3_device_on_params := List.replicate NUM_TRACKS none,
    eq3_hi_cut_params := List.replicate NUM_TRACKS none,
    eq3_mid_cut_params := List.replicate NUM_TRACKS none,
    eq3_low_cut_params := List.replicate NUM_TRACKS none,
    eq3_hi_gain_params := List.replicate NUM_TRACKS none,
    eq3_mid_gain_params := List.replicate NUM_TRACKS none,
    eq3_low_gain_params := List.replicate NUM_TRACKS none }

/-- `initialize_controller_components`: the state changes and the MIDI
messages sent during initialization, in source order: one
`update_devices_bindings` per track, then the mute draws, the cue draws,
then one `draw_mid_eq_cut` per track from the high-EQ loop (as written in
the source), one from the mid-EQ loop, and one `draw_low_eq_cut` per track
from the low-EQ loop.  Listener registrations send no messages. -/
def initialize_controller_components (s : XoneK2State) :
    XoneK2State × List MidiMsg :=
  let upd := (List.range NUM_TRACKS).foldl
    (fun acc i =>
      let r := update_devices_bindings acc.1 i
      (r.1, acc.2 ++ r.2))
    (s, [])
  let s1 := upd.1
  let muteMsgs := (List.range NUM_TRACKS).map (draw_mute_button s1)
  let cueMsgs := (List.range NUM_TRACKS).map (draw_cue_button s1)
  let hiMsgs := (List.range NUM_TRACKS).map (draw_mid_eq_cut s1)
  let midMsgs := (List.range NUM_TRACKS).map (draw_mid_eq_cut s1)
  let lowMsgs := (List.range NUM_TRACKS).map (draw_low_eq_cut s1)
  (s1, upd.2 ++ muteMsgs ++ cueMsgs ++ hiMsgs ++ midMsgs ++ lowMsgs)

/-- `__init__`: builds the tables, sets up the data structures and runs
`initialize_controller_components`; returns the adapter state and every
MIDI message sent before `__init__` returns. -/
def xonek2_init (tracks : List Track) (tempo : ℚ) : XoneK2State × List MidiMsg :=
  initialize_controller_components (setup_data_structures tracks tempo)

/-- A concrete track with no devices, unmuted, not soloed. -/
def plainTrack : Track :=
  { mute := false, solo := false,
    mixer_device := { volume := { value := NORMALIZED_ZERO_DB } }, devices := [] }

/-- A concrete `EQ Three` device carrying the parameters the script binds. -/
def eq3TestDevice : Device :=
  { name := "EQ Three",
    parameters :=
      [ { name := "Device On", value := 1 },
        { name := "HighOn", value := 1 },
        { name := "MidOn", value := 1 },
        { name := "LowOn", value := 1 },
        { name := "GainHi", value := NORMALIZED_ZERO_DB },
        { name := "GainMid", value := NORMALIZED_ZERO_DB },
        { name := "GainLo", value := NORMALIZED_ZERO_DB } ] }

/-- A concrete track carrying one `EQ Three` device. -/
def eqTrack : Track := { plainTrack with devices := [eq3TestDevice] }

/-- A concrete session with four plain tracks, right after
`setup_data_structures`. -/
def sampleState : XoneK2State :=
  setup_data_structures [plainTrack, plainTrack, plainTrack, plainTrack] 120

/-- A concrete session whose track 0 has an `EQ Three` device, right after
`setup_data_structures`. -/
def eqSetupState : XoneK2State :=
  setup_data_structures [eqTrack, plainTrack, plainTrack, plainTrack] 120

/-- `eqSetupState` after `update_devices_bindings(0)`: track 0's EQ
bindings are populated. -/
def eqBoundState : XoneK2State := (update_devices_bindings eqSetupState 0).1

/-- `sampleState` with both tempo-encoder push-buttons held. -/
def pushedState : XoneK2State :=
  { sampleState with coarse_encoder_is_pushed := true, fine_encoder_pushed := true }

/-- `eqBoundState` after the `EQ Three` device is removed from track 0
(device-list change), before the listener reruns. -/
def removedDeviceState : XoneK2State :=
  { eqBoundState with tracks := eqBoundState.tracks.set 0 plainTrack }

/-- `removedDeviceState` after `update_devices_bindings(0)` reruns. -/
def rebindState : XoneK2State := (update_devices_bindings removedDeviceState 0).1

/-- The first entry of the element-color table, used as a concrete witness. -/
def topEncoder1Entry : String × ElementColors :=
  ("top_encoder_1", ⟨nm "e3", nm "e6", nm "e9"⟩)

set_option maxRecDepth 10000

/-! ## Helper lemmas -/

lemma list_getD_set_self {α : Type} (l : List α) (i : ℕ) (x d : α)
    (h : i < l.length) : (l.set i x).getD i d = x := by
  simp [List.getD, List.getElem?_set_eq_of_lt _ h]

lemma getElem?_set_getD {α : Type} (l : List α) (i : ℕ) (x d : α)
    (h : i < l.length) : (l.set i x)[i]?.getD d = x := by
  rw [List.getElem?_set_eq_of_lt _ h]
  rfl

lemma NORMALIZED_ZERO_DB_nonneg : (0 : ℚ) ≤ NORMALIZED_ZERO_DB := by
  unfold NORMALIZED_ZERO_DB; norm_num

lemma volume_fader_gain_mono {v w : ℕ} (h : v ≤ w) :
    volume_fader_gain v ≤ volume_fader_gain w := by
  unfold volume_fader_gain
  have hc : ((v : ℚ)) ≤ (w : ℚ) := by exact_mod_cast h
  have h1 : ((v : ℚ) + 1.0) / 128.0 ≤ ((w : ℚ) + 1.0) / 128.0 := by
    apply div_le_div_of_nonneg_right ?_ (by norm_num)
    linarith
  exact mul_le_mul_of_nonneg_right h1 NORMALIZED_ZERO_DB_nonneg

lemma eq_knob_gain_step : ∀ v : ℕ, v < 127 →
    eq_knob_gain_value v ≤ eq_knob_gain_value (v + 1) := by
  with_unfolding_all decide

lemma eq_knob_gain_mono {v w : ℕ} (hvw : v ≤ w) (hw : w ≤ 127) :
    eq_knob_gain_value v ≤ eq_knob_gain_value w := by
  induction w with
  | zero =>
      have : v = 0 := Nat.le_zero.mp hvw
      simp [this]
  | succ n ih =>
      rcases Nat.lt_or_ge v (n + 1) with h | h
      · exact le_trans (ih (Nat.lt_succ_iff.mp h) (by omega))
          (eq_knob_gain_step n (by omega))
      · have : v = n + 1 := by omega
        simp [this]

lemma eq_knob_gain_bounds : ∀ v : ℕ, v < 128 →
    0 < eq_knob_gain_value v ∧ eq_knob_gain_value v ≤ 1 := by
  with_unfolding_all decide

lemma eq_knob_gain_deadzone_nat (v : ℕ) (h57 : 57 ≤ v) (h69 : v ≤ 69) :
    eq_knob_gain_value v = NORMALIZED_ZERO_DB := by
  interval_cases v <;> norm_num [eq_knob_gain_value, NORMALIZED_ZERO_DB]

lemma normalized_lower_iff (v : ℕ) :
    (9 : ℚ) / 20 ≤ ((v : ℚ) + 1) / 128 ↔ 57 ≤ v := by
  rw [div_le_div_iff (by norm_num) (by norm_num)]
  constructor
  · intro h
    have h2 : ((1152 : ℕ) : ℚ) ≤ (((v + 1) * 20 : ℕ) : ℚ) := by push_cast; linarith
    have h3 : (1152 : ℕ) ≤ (v + 1) * 20 := by exact_mod_cast h2
    omega
  · intro h
    have h2 : (1152 : ℕ) ≤ (v + 1) * 20 := by omega
    have h3 : ((1152 : ℕ) : ℚ) ≤ (((v + 1) * 20 : ℕ) : ℚ) := by exact_mod_cast h2
    push_cast at h3
    linarith

lemma normalized_upper_iff (v : ℕ) :
    ((v : ℚ) + 1) / 128 ≤ (11 : ℚ) / 20 ↔ v ≤ 69 := by
  rw [div_le_div_iff (by norm_num) (by norm_num)]
  constructor
  · intro h
    have h2 : (((v + 1) * 20 : ℕ) : ℚ) ≤ ((1408 : ℕ) : ℚ) := by push_cast; linarith
    have h3 : (v + 1) * 20 ≤ (1408 : ℕ) := by exact_mod_cast h2
    omega
  · intro h
    have h2 : (v + 1) * 20 ≤ (1408 : ℕ) := by omega
    have h3 : (((v + 1) * 20 : ℕ) : ℚ) ≤ ((1408 : ℕ) : ℚ) := by exact_mod_cast h2
    push_cast at h3
    linarith

lemma gainParams_setGainParams (s : XoneK2State) (b : Band)
    (l : List (Option DeviceParameter)) : gainParams (setGainParams s b l) b = l := by
  cases b <;> rfl

lemma cutParams_setCutParams (s : XoneK2State) (b : Band)
    (l : List (Option DeviceParameter)) : cutParams (setCutParams s b l) b = l := by
  cases b <;> rfl

/-! ## Claim theorems -/

/-- C1, counterexample: `on_volume_fader_move` does not write `0.0` at fader
value 0 (it writes `NORMALIZED_ZERO_DB / 128`), and at fader value 127 it
writes exactly `NORMALIZED_ZERO_DB`, not `127/128 * NORMALIZED_ZERO_DB`. -/
theorem C1_counterexample :
    ((on_volume_fader_move sampleState 0 0).tracks.getD 0 defaultTrack).mixer_device.volume.value ≠ 0
    ∧ ((on_volume_fader_move sampleState 0 127).tracks.getD 0 defaultTrack).mixer_device.volume.value
        ≠ 127 / 128 * NORMALIZED_ZERO_DB := by
  with_unfolding_all decide

/-- C1, amended: for every track index `i` and fader value `v ≤ 127`,
`on_volume_fader_move` writes `(v+1)/128 * NORMALIZED_ZERO_DB` to the
track's mixer volume — `NORMALIZED_ZERO_DB/128 ≈ 0.00664` at `v = 0` and
exactly `NORMALIZED_ZERO_DB` at `v = 127` — and the written volume is
monotone non-decreasing in `v` over `[0,127]`. -/
theorem C1_volume_fader (s : XoneK2State) (i v w : ℕ)
    (hi : i < s.tracks.length) (hv : v ≤ 127) (hvw : v ≤ w) (hw : w ≤ 127) :
    ((on_volume_fader_move s i v).tracks.getD i defaultTrack).mixer_device.volume.value
      = volume_fader_gain v
    ∧ volume_fader_gain v = ((v : ℚ) + 1) / 128 * NORMALIZED_ZERO_DB
    ∧ volume_fader_gain 0 = NORMALIZED_ZERO_DB / 128
    ∧ volume_fader_gain 127 = NORMALIZED_ZERO_DB
    ∧ volume_fader_gain v ≤ volume_fader_gain w := by
  refine ⟨?_, ?_, ?_, ?_, volume_fader_gain_mono hvw⟩
  · simp only [on_volume_fader_move]
    rw [list_getD_set_self _ _ _ _ hi]
  · unfold volume_fader_gain
    norm_num
  · unfold volume_fader_gain
    push_cast
    ring
  · unfold volume_fader_gain NORMALIZED_ZERO_DB
    norm_num

/-- C1, witness: the amended statement instantiated at track 0, `v = 3`,
`w = 100` of the concrete four-track session. -/
theorem C1_volume_fader_witness :
    ((on_volume_fader_move sampleState 0 3).tracks.getD 0 defaultTrack).mixer_device.volume.value
      = volume_fader_gain 3
    ∧ volume_fader_gain 3 = (((3 : ℕ) : ℚ) + 1) / 128 * NORMALIZED_ZERO_DB
    ∧ volume_fader_gain 0 = NORMALIZED_ZERO_DB / 128
    ∧ volume_fader_gain 127 = NORMALIZED_ZERO_DB
    ∧ volume_fader_gain 3 ≤ volume_fader_gain 100 :=
  C1_volume_fader sampleState 0 3 100 (by decide) (by decide) (by decide) (by decide)

/-- C2, counterexample: at knob value 0 `on_eq_knob_turn` does not write
`0.0`; it writes `eq_knob_gain_value 0 = 5/288 * NORMALIZED_ZERO_DB ≈ 0.0148`
to the bound gain parameter. -/
theorem C2_counterexample :
    eq_knob_gain_value 0 ≠ 0
    ∧ (gainParams (on_eq_knob_turn Band.hi eqBoundState 0 0) Band.hi).getD 0 none
        = some { name := "GainHi", value := eq_knob_gain_value 0 } := by
  constructor
  · norm_num [eq_knob_gain_value, NORMALIZED_ZERO_DB]
  · rfl

/-- C2, amended: for a bound gain parameter, `on_eq_knob_turn` writes
`eq_knob_gain_value v`; that gain is exactly `NORMALIZED_ZERO_DB` whenever
the normalized input `(v+1)/128` lies in the center dead zone
`[0.45, 0.55]`, equals `5/288 * NORMALIZED_ZERO_DB ≈ 0.0148` at `v = 0`
(not `0.0`), equals `1.0` at `v = 127`, and is monotone non-decreasing
within each of the three segments. -/
theorem C2_eq_knob (s : XoneK2State) (b : Band) (i v : ℕ) (p : DeviceParameter)
    (hi : i < (gainParams s b).length)
    (hp : (gainParams s b).getD i none = some p) :
    (gainParams (on_eq_knob_turn b s i v) b).getD i none
      = some { p with value := eq_knob_gain_value v }
    ∧ (∀ u : ℕ, (9 : ℚ) / 20 ≤ ((u : ℚ) + 1) / 128 → ((u : ℚ) + 1) / 128 ≤ (11 : ℚ) / 20 →
        eq_knob_gain_value u = NORMALIZED_ZERO_DB)
    ∧ eq_knob_gain_value 0 = 5 / 288 * NORMALIZED_ZERO_DB
    ∧ eq_knob_gain_value 127 = 1
    ∧ (∀ u w : ℕ, u ≤ w → w ≤ 127 → (w ≤ 56 ∨ (57 ≤ u ∧ w ≤ 69) ∨ 70 ≤ u) →
        eq_knob_gain_value u ≤ eq_knob_gain_value w) := by
  refine ⟨?_, ?_, ?_, ?_, ?_⟩
  · simp only [on_eq_knob_turn, hp]
    rw [gainParams_setGainParams, list_getD_set_self _ _ _ _ hi]
  · intro u h1 h2
    exact eq_knob_gain_deadzone_nat u ((normalized_lower_iff u).mp h1)
      ((normalized_upper_iff u).mp h2)
  · norm_num [eq_knob_gain_value, NORMALIZED_ZERO_DB]
  · norm_num [eq_knob_gain_value, NORMALIZED_ZERO_DB]
  · intro u w huw hw _
    exact eq_knob_gain_mono huw hw

/-- C2, witness: the amended statement instantiated at track 0 of the
concrete session with an `EQ Three` device, knob value 64. -/
theorem C2_eq_knob_witness :
    (gainParams (on_eq_knob_turn Band.hi eqBoundState 0 64) Band.hi).getD 0 none
      = some { (⟨"GainHi", NORMALIZED_ZERO_DB⟩ : DeviceParameter) with
               value := eq_knob_gain_value 64 }
    ∧ (∀ u : ℕ, (9 : ℚ) / 20 ≤ ((u : ℚ) + 1) / 128 → ((u : ℚ) + 1) / 128 ≤ (11 : ℚ) / 20 →
        eq_knob_gain_value u = NORMALIZED_ZERO_DB)
    ∧ eq_knob_gain_value 0 = 5 / 288 * NORMALIZED_ZERO_DB
    ∧ eq_knob_gain_value 127 = 1
    ∧ (∀ u w : ℕ, u ≤ w → w ≤ 127 → (w ≤ 56 ∨ (57 ≤ u ∧ w ≤ 69) ∨ 70 ≤ u) →
        eq_knob_gain_value u ≤ eq_knob_gain_value w) :=
  C2_eq_knob eqBoundState Band.hi 0 64 ⟨"GainHi", NORMALIZED_ZERO_DB⟩
    (by decide) (by rfl)

/-- The values of the note table are exactly its insertion indices. -/
lemma note_to_midi_snd : note_to_midi.map Prod.snd = List.range octave_notes.length := by
  unfold note_to_midi
  rw [List.map_map]
  have h : (Prod.snd ∘ fun i => (octave_notes.getD i "", i)) = id := rfl
  rw [h, List.map_id]

/-- C3, counterexample: the note table maps the label `b9` to `131`, which
is outside the MIDI range `[0,127]`. -/
theorem C3_counterexample :
    noteToMidiLookup "b9" = some 131 ∧ ¬ (131 ≤ 127) := by
  decide

/-- C3, amended: the note table built by `_create_note_to_midi_dict` has
exactly 132 pairwise-distinct labels (12 pitch classes across the 11
octaves `-1`..`9` in a fixed order), its label-to-number mapping is
injective, and every mapped note number lies in `[0,131]` (the enumeration
overruns the 128-value MIDI range by four notes: `g#9`..`b9`). -/
theorem C3_note_table :
    octave_notes.length = 132
    ∧ octave_notes.Nodup
    ∧ (∀ p ∈ note_to_midi, p.2 ≤ 131)
    ∧ (∀ p ∈ note_to_midi, ∀ q ∈ note_to_midi, p.2 = q.2 → p.1 = q.1) := by
  have hlen : octave_notes.length = 132 := by decide
  refine ⟨hlen, by decide, ?_, ?_⟩
  · intro p hp
    have h1 : p.2 ∈ note_to_midi.map Prod.snd := List.mem_map_of_mem _ hp
    rw [note_to_midi_snd] at h1
    have h2 := List.mem_range.mp h1
    rw [hlen] at h2
    omega
  · intro p hp q hq hpq
    have hnd : (note_to_midi.map Prod.snd).Nodup := by
      rw [note_to_midi_snd]
      exact List.nodup_range _
    have hpq' : p = q := List.inj_on_of_nodup_map hnd hp hq hpq
    rw [hpq']

/-- C3, witness: the amended range bound applied to the concrete table
entry `("b9", 131)`. -/
theorem C3_note_table_witness : ((("b9", 131) : String × ℕ)).2 ≤ 131 :=
  C3_note_table.2.2.1 ("b9", 131) (by decide)

/-- C9: for every element of the element-color table, the `red`, `orange`
and `green` notes are pairwise distinct and each lies in `[0,127]`. -/
theorem C9_element_colors (e : String × ElementColors)
    (he : e ∈ element_color_to_midi) :
    (e.2.red ≠ e.2.orange ∧ e.2.red ≠ e.2.green ∧ e.2.orange ≠ e.2.green)
    ∧ e.2.red ≤ 127 ∧ e.2.orange ≤ 127 ∧ e.2.green ≤ 127 := by
  revert he
  revert e
  decide

/-- C9, witness: the color property at the concrete first table entry. -/
theorem C9_element_colors_witness :
    (topEncoder1Entry.2.red ≠ topEncoder1Entry.2.orange
      ∧ topEncoder1Entry.2.red ≠ topEncoder1Entry.2.green
      ∧ topEncoder1Entry.2.orange ≠ topEncoder1Entry.2.green)
    ∧ topEncoder1Entry.2.red ≤ 127 ∧ topEncoder1Entry.2.orange ≤ 127
    ∧ topEncoder1Entry.2.green ≤ 127 :=
  C9_element_colors topEncoder1Entry (by decide)

/-- C10: over the whole input range the written gain lies in `(0, 1]`, is
monotone non-decreasing, and jumps discontinuously at the upper dead-zone
boundary from `NORMALIZED_ZERO_DB` (at `v = 69`) to
`NORMALIZED_ZERO_DB + 67/352 * (1 - NORMALIZED_ZERO_DB) ≈ 0.8786`
(at `v = 70`), a gap larger than `1/50`. -/
theorem C10_gain_range_mono (v w : ℕ) (hv : v ≤ 127) (hw : w ≤ 127) (hvw : v ≤ w) :
    (0 < eq_knob_gain_value v ∧ eq_knob_gain_value v ≤ 1)
    ∧ eq_knob_gain_value v ≤ eq_knob_gain_value w
    ∧ eq_knob_gain_value 69 = NORMALIZED_ZERO_DB
    ∧ eq_knob_gain_value 70 = NORMALIZED_ZERO_DB + 67 / 352 * (1 - NORMALIZED_ZERO_DB)
    ∧ NORMALIZED_ZERO_DB + 1 / 50 < eq_knob_gain_value 70 := by
  refine ⟨eq_knob_gain_bounds v (by omega), eq_knob_gain_mono hvw hw,
    eq_knob_gain_deadzone_nat 69 (by omega) (by omega), ?_, ?_⟩
  · norm_num [eq_knob_gain_value, NORMALIZED_ZERO_DB]
  · norm_num [eq_knob_gain_value, NORMALIZED_ZERO_DB]

/-- C10, witness: the statement instantiated at `v = 10`, `w = 100`. -/
theorem C10_gain_range_mono_witness :
    (0 < eq_knob_gain_value 10 ∧ eq_knob_gain_value 10 ≤ 1)
    ∧ eq_knob_gain_value 10 ≤ eq_knob_gain_value 100
    ∧ eq_knob_gain_value 69 = NORMALIZED_ZERO_DB
    ∧ eq_knob_gain_value 70 = NORMALIZED_ZERO_DB + 67 / 352 * (1 - NORMALIZED_ZERO_DB)
    ∧ NORMALIZED_ZERO_DB + 1 / 50 < eq_knob_gain_value 70 :=
  C10_gain_range_mono 10 100 (by decide) (by decide) (by decide)

/-- C4: evaluation at the failing scenario.  Track 0 of `eqBoundState` has
bound EQ3 parameters; after the `EQ Three` device is removed and
`update_devices_bindings(0)` reruns, the device, device-on and cut bindings
are cleared but the three gain bindings still hold the stale parameters of
the removed device — the `else` branch of the source never resets them. -/
theorem C4_stale_gain_binding :
    rebindState.eq3_devices.getD 0 none = none
    ∧ rebindState.eq3_device_on_params.getD 0 none = none
    ∧ rebindState.eq3_hi_cut_params.getD 0 none = none
    ∧ rebindState.eq3_mid_cut_params.getD 0 none = none
    ∧ rebindState.eq3_low_cut_params.getD 0 none = none
    ∧ rebindState.eq3_hi_gain_params.getD 0 none
        = some ⟨"GainHi", NORMALIZED_ZERO_DB⟩
    ∧ rebindState.eq3_mid_gain_params.getD 0 none
        = some ⟨"GainMid", NORMALIZED_ZERO_DB⟩
    ∧ rebindState.eq3_low_gain_params.getD 0 none
        = some ⟨"GainLo", NORMALIZED_ZERO_DB⟩ :=
  ⟨rfl, rfl, rfl, rfl, rfl, rfl, rfl, rfl⟩

/-- C5, counterexample: `top_encoder_1` is in the element-color table, yet
during `__init__` (modelled by `xonek2_init` on a concrete four-track
session) no note-off message for its red note is ever sent — the three-pass
LED reset happens in `disconnect`, not during construction. -/
theorem C5_counterexample :
    (element_color_to_midi.lookup "top_encoder_1").isSome = true
    ∧ dim_element "top_encoder_1" "red"
        ∉ (xonek2_init [plainTrack, plainTrack, plainTrack, plainTrack] 120).2 := by
  constructor
  · decide
  · decide

/-- C5, amended: upon `disconnect` (teardown), not during construction, the
adapter resets every addressable LED: for every element of the
element-color table a note-off (dim) message is sent for each of the three
color layers, in three full passes over all elements (red, orange, green),
`3 *` table-size messages in total. -/
theorem C5_disconnect_dims_all (e : String × ElementColors)
    (he : e ∈ element_color_to_midi) :
    dim_element e.1 "red" ∈ disconnect_messages
    ∧ dim_element e.1 "orange" ∈ disconnect_messages
    ∧ dim_element e.1 "green" ∈ disconnect_messages
    ∧ disconnect_messages.length = 3 * element_color_to_midi.length := by
  refine ⟨?_, ?_, ?_, ?_⟩
  · exact List.mem_append_left _ (List.mem_append_left _ (List.mem_map_of_mem _ he))
  · exact List.mem_append_left _ (List.mem_append_right _ (List.mem_map_of_mem _ he))
  · exact List.mem_append_right _ (List.mem_map_of_mem _ he)
  · simp only [disconnect_messages, dim_all_elements, List.length_append,
      List.length_map]
    ring

/-- C5, witness: the amended statement at the concrete first table entry. -/
theorem C5_disconnect_dims_all_witness :
    dim_element topEncoder1Entry.1 "red" ∈ disconnect_messages
    ∧ dim_element topEncoder1Entry.1 "orange" ∈ disconnect_messages
    ∧ dim_element topEncoder1Entry.1 "green" ∈ disconnect_messages
    ∧ disconnect_messages.length = 3 * element_color_to_midi.length :=
  C5_disconnect_dims_all topEncoder1Entry (by decide)

/-- C6, counterexample: with the coarse push-button held, one tick adjusts
the tempo by `0.1`, which is one tenth — not half — of the unheld step
`1.0`. -/
theorem C6_counterexample :
    (on_coarse_tempo_change pushedState 1).tempo = pushedState.tempo + 1 / 10
    ∧ (on_coarse_tempo_change pushedState 1).tempo ≠ pushedState.tempo + 1 / 2 * 1 := by
  have h : (on_coarse_tempo_change pushedState 1).tempo = pushedState.tempo + 0.1 := rfl
  have ht : pushedState.tempo = 120 := rfl
  rw [h, ht]
  norm_num

/-- C6, amended: per tick the coarse encoder adjusts the tempo by `1.0`
unheld and `0.1` held, the fine encoder by `0.1` unheld and `0.01` held —
the held step is one tenth (not half) of the unheld step — and rotation
value 1 increments while value 127 decrements. -/
theorem C6_tempo_steps (s : XoneK2State) :
    (s.coarse_encoder_is_pushed = false →
      (on_coarse_tempo_change s 1).tempo = s.tempo + 1
      ∧ (on_coarse_tempo_change s 127).tempo = s.tempo - 1)
    ∧ (s.coarse_encoder_is_pushed = true →
      (on_coarse_tempo_change s 1).tempo = s.tempo + 1 / 10
      ∧ (on_coarse_tempo_change s 127).tempo = s.tempo - 1 / 10)
    ∧ (s.fine_encoder_pushed = false →
      (on_fine_tempo_change s 1).tempo = s.tempo + 1 / 10
      ∧ (on_fine_tempo_change s 127).tempo = s.tempo - 1 / 10)
    ∧ (s.fine_encoder_pushed = true →
      (on_fine_tempo_change s 1).tempo = s.tempo + 1 / 100
      ∧ (on_fine_tempo_change s 127).tempo = s.tempo - 1 / 100) := by
  refine ⟨fun h => ⟨?_, ?_⟩, fun h => ⟨?_, ?_⟩, fun h => ⟨?_, ?_⟩, fun h => ⟨?_, ?_⟩⟩
  · simp [on_coarse_tempo_change, h]
    norm_num
  · simp [on_coarse_tempo_change, h]
    norm_num
  · simp [on_coarse_tempo_change, h]
    norm_num
  · simp [on_coarse_tempo_change, h]
    norm_num
  · simp [on_fine_tempo_change, h]
    norm_num
  · simp [on_fine_tempo_change, h]
    norm_num
  · simp [on_fine_tempo_change, h]
    norm_num
  · simp [on_fine_tempo_change, h]
    norm_num

/-- C6, witness: the held-coarse and held-fine steps at the concrete
session with both push-buttons held. -/
theorem C6_tempo_steps_witness :
    ((on_coarse_tempo_change pushedState 1).tempo = pushedState.tempo + 1 / 10
      ∧ (on_coarse_tempo_change pushedState 127).tempo = pushedState.tempo - 1 / 10)
    ∧ ((on_fine_tempo_change pushedState 1).tempo = pushedState.tempo + 1 / 100
      ∧ (on_fine_tempo_change pushedState 127).tempo = pushedState.tempo - 1 / 100) :=
  ⟨(C6_tempo_steps pushedState).2.1 rfl, (C6_tempo_steps pushedState).2.2.2 rfl⟩

/-- C7: for the mute, cue, EQ-kill and EQ-cut buttons, a press (value 127)
flips the bound boolean host state exactly once, a release (value 0)
changes no host state, redraws with an unchanged underlying value re-emit
the same LED message, and a mute press on an unmuted track mutes it and
dims its mute LED. -/
theorem C7_toggle_buttons (s s' : XoneK2State) (i : ℕ) (b : Band) (p : DeviceParameter) :
    (i < s.tracks.length →
      ((on_mute_button_push s i 127).1.tracks.getD i defaultTrack).mute
        = ! (s.tracks.getD i defaultTrack).mute)
    ∧ (on_mute_button_push s i 0).1 = s
    ∧ (i < s.tracks.length →
      ((on_cue_button_push s i 127).1.tracks.getD i defaultTrack).solo
        = ! (s.tracks.getD i defaultTrack).solo)
    ∧ (on_cue_button_push s i 0).1 = s
    ∧ (s.eq3_device_on_params.getD i none = some p →
        i < s.eq3_device_on_params.length →
      (on_eq_kill_button_push s i 127).1.eq3_device_on_params.getD i none
        = some { p with value := |p.value - 1| })
    ∧ (on_eq_kill_button_push s i 0).1 = s
    ∧ ((cutParams s b).getD i none = some p → i < (cutParams s b).length →
      (cutParams (on_eq_cut_button_push b s i 127).1 b).getD i none
        = some { p with value := |p.value - 1| })
    ∧ (on_eq_cut_button_push b s i 0).1 = s
    ∧ (s.tracks.getD i defaultTrack = s'.tracks.getD i defaultTrack →
      draw_mute_button s i = draw_mute_button s' i
        ∧ draw_cue_button s i = draw_cue_button s' i)
    ∧ (s.eq3_device_on_params.getD i none = s'.eq3_device_on_params.getD i none →
      draw_eq_kill s i = draw_eq_kill s' i)
    ∧ ((cutParams s b).getD i none = (cutParams s' b).getD i none →
      cutDraw b s i = cutDraw b s' i)
    ∧ (i < s.tracks.length → (s.tracks.getD i defaultTrack).mute = false →
      ((on_mute_button_push s i 127).1.tracks.getD i defaultTrack).mute = true
        ∧ (on_mute_button_push s i 127).2
            = [dim_element (mute_elements.getD i "") MUTE_BUTTON_COLOR]) := by
  refine ⟨fun hi => ?_, ?_, fun hi => ?_, ?_, fun hp hl => ?_, ?_, fun hp hl => ?_, ?_,
    fun h => ⟨?_, ?_⟩, fun h => ?_, fun h => ?_, fun hi hm => ⟨?_, ?_⟩⟩
  · simp only [on_mute_button_push]
    norm_num
    rw [getElem?_set_getD _ _ _ _ hi]
  · rfl
  · simp only [on_cue_button_push]
    norm_num
    rw [getElem?_set_getD _ _ _ _ hi]
  · rfl
  · simp only [on_eq_kill_button_push, hp]
    norm_num
    rw [getElem?_set_getD _ _ _ _ hl]
  · cases hc : s.eq3_device_on_params[i]?.getD none <;>
      simp [on_eq_kill_button_push, List.getD, hc]
  · simp only [on_eq_cut_button_push, hp]
    norm_num
    rw [cutParams_setCutParams, getElem?_set_getD _ _ _ _ hl]
  · cases hc : (cutParams s b)[i]?.getD none <;>
      simp [on_eq_cut_button_push, List.getD, hc]
  · simp at h
    simp [draw_mute_button, List.getD, h]
  · simp at h
    simp [draw_cue_button, List.getD, h]
  · simp at h
    simp [draw_eq_kill, List.getD, h]
  · cases b
    all_goals simp [cutParams] at h
    all_goals simp [cutDraw, cutParams, draw_hi_eq_cut, draw_mid_eq_cut,
      draw_low_eq_cut, List.getD, h]
  · simp only [on_mute_button_push]
    norm_num
    rw [getElem?_set_getD _ _ _ _ hi]
    simp at hm
    simp [hm]
  · simp at hm
    simp [on_mute_button_push, List.getD, hm]

/-- C7, witness: mute flip, kill flip, redraw stability for the mute and
high-cut draws, and the mute-press scenario at track 0 of the concrete
session with an `EQ Three` device (track 0 starts unmuted). -/
theorem C7_toggle_buttons_witness :
    ((on_mute_button_push eqBoundState 0 127).1.tracks.getD 0 defaultTrack).mute
      = ! (eqBoundState.tracks.getD 0 defaultTrack).mute
    ∧ (on_eq_kill_button_push eqBoundState 0 127).1.eq3_device_on_params.getD 0 none
      = some ⟨"Device On", |(1 : ℚ) - 1|⟩
    ∧ draw_mute_button eqBoundState 0 = draw_mute_button eqBoundState 0
    ∧ cutDraw Band.hi eqBoundState 0 = cutDraw Band.hi eqBoundState 0
    ∧ ((on_mute_button_push eqBoundState 0 127).1.tracks.getD 0 defaultTrack).mute = true
    ∧ (on_mute_button_push eqBoundState 0 127).2
        = [dim_element (mute_elements.getD 0 "") MUTE_BUTTON_COLOR] :=
  ⟨(C7_toggle_buttons eqBoundState eqBoundState 0 Band.hi ⟨"Device On", 1⟩).1
      (by decide),
   (C7_toggle_buttons eqBoundState eqBoundState 0 Band.hi ⟨"Device On", 1⟩).2.2.2.2.1
      (by rfl) (by decide),
   ((C7_toggle_buttons eqBoundState eqBoundState 0 Band.hi ⟨"Device On", 1⟩).2.2.2.2.2.2.2.2.1
      rfl).1,
   (C7_toggle_buttons eqBoundState eqBoundState 0 Band.hi ⟨"Device On", 1⟩).2.2.2.2.2.2.2.2.2.2.1
      rfl,
   (C7_toggle_buttons eqBoundState eqBoundState 0 Band.hi ⟨"Device On", 1⟩).2.2.2.2.2.2.2.2.2.2.2
      (by decide) (by rfl)⟩

/-- C8: when a bound EQ parameter is absent (binding `none`), the EQ-kill
button, EQ gain knob and EQ cut button handlers change no host state and
raise no exception (they are total functions), and the kill/cut LEDs are
dimmed: the handlers return the unchanged state with exactly a note-off
(dim) message for the associated element (the knob sends nothing). -/
theorem C8_missing_binding_noop (s : XoneK2State) (i v : ℕ) (b : Band) :
    (s.eq3_device_on_params.getD i none = none →
      on_eq_kill_button_push s i v
        = (s, [dim_element (eq_kill_elements.getD i "") EQ_KILL_COLOR]))
    ∧ ((gainParams s b).getD i none = none → on_eq_knob_turn b s i v = s)
    ∧ ((cutParams s b).getD i none = none →
      on_eq_cut_button_push b s i v
        = (s, [dim_element ((cutElements b).getD i "") EQ_CUT_COLOR])) := by
  refine ⟨fun h => ?_, fun h => ?_, fun h => ?_⟩
  · simp at h
    simp [on_eq_kill_button_push, h, draw_eq_kill, paramIsOne]
  · simp at h
    simp [on_eq_knob_turn, h]
  · cases b <;>
      simp_all [on_eq_cut_button_push, cutParams, cutDraw, cutElements,
        draw_hi_eq_cut, draw_mid_eq_cut, draw_low_eq_cut, paramIsOne]

/-- C8, witness: the three no-op behaviours at track 0 of the concrete
session without any EQ device. -/
theorem C8_missing_binding_noop_witness :
    on_eq_kill_button_push sampleState 0 127
      = (sampleState, [dim_element (eq_kill_elements.getD 0 "") EQ_KILL_COLOR])
    ∧ on_eq_knob_turn Band.hi sampleState 0 127 = sampleState
    ∧ on_eq_cut_button_push Band.hi sampleState 0 127
      = (sampleState, [dim_element ((cutElements Band.hi).getD 0 "") EQ_CUT_COLOR]) :=
  ⟨(C8_missing_binding_noop sampleState 0 127 Band.hi).1 rfl,
   (C8_missing_binding_noop sampleState 0 127 Band.hi).2.1 rfl,
   (C8_missing_binding_noop sampleState 0 127 Band.hi).2.2 rfl⟩

end XoneK2
